import Mathlib

/-!
Verification of the InstagramAutomation workflow (src/main.py).

The program is a linear pipeline: read an RSS feed, generate a caption for
an article via an AI completion endpoint, scrape the article page for an
Open-Graph image URL, and publish the image/caption pair through a
two-phase Graph API protocol.  All network interactions are modelled as
oracle functions carried by a `World` record; every component is embedded
as a pure function that returns the trace of observable events it
produces (component invocations, HTTP POSTs, console prints).  The
`fetch_thumbnail` component can raise a key-lookup error in Python
(`tag['content']` on a tag without a `content` attribute), so it returns
`Except`; the driver loop propagates such an error as an uncaught
exception, recorded in the second component of its result.
-/

/-- A minimal JSON scalar value, enough for the response bodies and request
payloads the program manipulates. -/
inductive JVal where
  | null
  | str (s : String)
  | num (n : Int)
  | bool (b : Bool)
deriving DecidableEq, Repr

/-- A JSON object, as returned by `response.json()`: an association list of
field names to scalar values. -/
abbrev JsonObj := List (String × JVal)

/-- Python `dict.get(k)`: the value of the first binding of `k`, or `None`. -/
def JsonObj.get (o : JsonObj) (k : String) : Option JVal :=
  (o.find? (fun p => p.1 == k)).map (fun p => p.2)

/-- Python truthiness of a JSON scalar: `None`, `False`, `0` and `""` are
falsy, everything else truthy. -/
def JVal.truthy : JVal → Bool
  | .null => false
  | .str s => !s.isEmpty
  | .num n => n != 0
  | .bool b => b

/-- Python truthiness of a `dict.get` result: `None` (absent key) is falsy,
otherwise the value's own truthiness. -/
def optTruthy : Option JVal → Bool
  | none => false
  | some v => v.truthy

/-- Python truthiness of an optional string (`fetch_thumbnail`'s result):
`None` and the empty string are falsy. -/
def strFalsy : Option String → Bool
  | none => true
  | some s => s.isEmpty

/-- An HTTP response as the program observes it: a status code and a JSON
body (`response.json()`). -/
structure HttpResponse where
  status : Nat
  body : JsonObj
deriving DecidableEq, Repr

/-- One parsed RSS feed entry, restricted to the fields the program reads.
`title`, `link`, `published` and `summary` are accessed as attributes (the
program assumes they are present); `author` is read with
`entry.get("author", "Unknown")`, so it may be absent. -/
structure FeedEntry where
  title : String
  link : String
  published : String
  summary : String
  author : Option String
deriving DecidableEq, Repr

/-- The news-item record built by `get_latest_articles` for each entry. -/
structure Article where
  title : String
  link : String
  published : String
  summary : String
  author : String
deriving DecidableEq, Repr

/-- The dictionary constructed in the body of `get_latest_articles`'s loop:
title, link, published and summary verbatim, author defaulting to
`"Unknown"`. -/
def entryToArticle (e : FeedEntry) : Article :=
  { title := e.title
    link := e.link
    published := e.published
    summary := e.summary
    author := e.author.getD "Unknown" }

/-- The record's title is the entry's title. -/
theorem entryToArticle_title (e : FeedEntry) : (entryToArticle e).title = e.title := rfl

/-- The record's link is the entry's link. -/
theorem entryToArticle_link (e : FeedEntry) : (entryToArticle e).link = e.link := rfl

/-- The record's summary is the entry's summary. -/
theorem entryToArticle_summary (e : FeedEntry) : (entryToArticle e).summary = e.summary := rfl

/-- `get_latest_articles(feed_url, last_checked)` from src/main.py, with the
parsed feed (the result of `feedparser.parse(feed_url)`) passed in place of
the URL.  It builds one news item per entry, in feed order; the
`last_checked` argument is accepted but never consulted. -/
def get_latest_articles (feed : List FeedEntry) (last_checked : Nat) : List Article :=
  feed.map entryToArticle

/-- The prompt literal built by `generate_caption`.  The Python source uses
a backslash line continuation inside the f-string, so the indentation of
the second source line is part of the string. -/
def caption_prompt (article_title article_url : String) : String :=
  "Write an engaging 2-3 sentence Instagram caption for the article titled '" ++
    article_title ++ "'.     The caption should briefly summarize the article and end with this link: " ++
    article_url ++ "."

/-- `generate_caption(article_title, article_summary, article_url)` from
src/main.py, with the completion endpoint abstracted as an oracle `ai`
mapping the submitted prompt to `choices[0].message.content`.  Note the
summary argument is accepted but does not appear in the prompt. -/
def generate_caption (ai : String → String) (article_title article_summary article_url : String) :
    String :=
  ai (caption_prompt article_title article_url)

/-- One HTML tag as BeautifulSoup exposes it: a tag name and its
attributes. -/
structure Tag where
  name : String
  attrs : List (String × String)
deriving DecidableEq, Repr

/-- Attribute lookup on a tag: first binding of the key, if any. -/
def Tag.getAttr (t : Tag) (k : String) : Option String :=
  (t.attrs.find? (fun p => p.1 == k)).map (fun p => p.2)

/-- The predicate behind `soup.find("meta", property="og:image")`: a tag
named `meta` whose `property` attribute equals `"og:image"`. -/
def isOgImageMeta (t : Tag) : Bool :=
  t.name == "meta" && t.getAttr "property" == some "og:image"

/-- `fetch_thumbnail(article_url)` from src/main.py, with the fetched and
parsed HTML document (the tags of `BeautifulSoup(response.content)`) passed
in place of the URL.  `soup.find` returns the first matching tag or `None`;
when a tag is found, `thumbnail_url['content']` raises a `KeyError` if the
tag has no `content` attribute, modelled by the `Except.error` case. -/
def fetch_thumbnail (doc : List Tag) : Except String (Option String) :=
  match doc.find? isOgImageMeta with
  | none => .ok none
  | some t =>
    match t.getAttr "content" with
    | some c => .ok (some c)
    | none => .error "KeyError: content"

/-- Observable events of a run: component invocations, outbound HTTP POSTs
and console prints (`printedJson` is a print of a message followed by a
JSON response body). -/
inductive Event where
  | genCaption (title summary link : String)
  | fetchThumb (url : String)
  | postIG (imageUrl caption : String)
  | httpPost (url : String) (payload : List (String × JVal))
  | printed (msg : String)
  | printedJson (msg : String) (body : JsonObj)
deriving DecidableEq, Repr

/-- The media-create endpoint URL built by `post_to_instagram`. -/
def media_url (accountId : String) : String :=
  "https://graph.facebook.com/v15.0/" ++ accountId ++ "/media"

/-- The media-publish endpoint URL built by `post_to_instagram`. -/
def publish_url (accountId : String) : String :=
  "https://graph.facebook.com/v15.0/" ++ accountId ++ "/media_publish"

/-- The phase-1 request payload of `post_to_instagram`. -/
def mediaPayload (imageUrl caption accessToken : String) : List (String × JVal) :=
  [("image_url", .str imageUrl), ("caption", .str caption), ("access_token", .str accessToken)]

/-- The phase-2 request payload of `post_to_instagram`. -/
def publishPayload (mediaId : JVal) (accessToken : String) : List (String × JVal) :=
  [("creation_id", mediaId), ("access_token", .str accessToken)]

/-- `post_to_instagram(image_url, caption)` from src/main.py.  `doPost` is
the oracle for `requests.post` (URL and form payload to response); the
account id and access token stand for the `IG_ACCOUNT_ID` and
`IG_ACCESS_TOKEN` globals.  The function returns the trace of its events:
phase-1 POST; if the response body's `id` is falsy, an error print and
nothing else; otherwise the phase-2 POST followed by a success print on
status 200 or an error print otherwise.  It returns no structured result
and raises nothing. -/
def post_to_instagram (doPost : String → List (String × JVal) → HttpResponse)
    (accountId accessToken imageUrl caption : String) : List Event :=
  let mp := mediaPayload imageUrl caption accessToken
  let mediaResponse := doPost (media_url accountId) mp
  let mediaId := mediaResponse.body.get "id"
  if !optTruthy mediaId then
    [.httpPost (media_url accountId) mp,
     .printedJson "Error uploading media:" mediaResponse.body]
  else
    let pp := publishPayload (mediaId.getD .null) accessToken
    let publishResponse := doPost (publish_url accountId) pp
    [.httpPost (media_url accountId) mp, .httpPost (publish_url accountId) pp] ++
      (if publishResponse.status == 200 then
        [.printed "Post published successfully!"]
      else
        [.printedJson "Error publishing post:" publishResponse.body])

/-- The external world of one run: the parsed feed, the AI completion
oracle, the page-fetch-and-parse oracle (article URL to HTML tags), the
HTTP POST oracle, and the Instagram credentials. -/
structure World where
  feed : List FeedEntry
  ai : String → String
  page : String → List Tag
  doPost : String → List (String × JVal) → HttpResponse
  accountId : String
  accessToken : String

/-- The no-thumbnail console message of the driver loop. -/
def noThumbMsg (title : String) : String :=
  "No thumbnail found for article: " ++ title

/-- The `for article in new_articles` loop of `main` in src/main.py.  For
each article it generates a caption, resolves the thumbnail (an uncaught
`KeyError` aborts the run, returned as the second component); a falsy
thumbnail prints the no-thumbnail message and `continue`s to the next
article; a truthy one posts to Instagram and `break`s. -/
def mainLoop (w : World) : List Article → List Event × Option String
  | [] => ([], none)
  | article :: rest =>
    let caption := generate_caption w.ai article.title article.summary article.link
    let pre := [Event.genCaption article.title article.summary article.link,
                Event.fetchThumb article.link]
    match fetch_thumbnail (w.page article.link) with
    | .error e => (pre, some e)
    | .ok imageUrl =>
      if strFalsy imageUrl then
        let r := mainLoop w rest
        (pre ++ [Event.printed (noThumbMsg article.title)] ++ r.1, r.2)
      else
        (pre ++ [Event.postIG (imageUrl.getD "") caption] ++
          post_to_instagram w.doPost w.accountId w.accessToken (imageUrl.getD "") caption,
         none)

/-- `main()` from src/main.py: fetch the articles via `get_latest_articles`
(passing the `LAST_CHECKED` timestamp, which the reader ignores) and run
the article loop.  The trailing `LAST_CHECKED` update touches no observable
behaviour. -/
def mainRun (w : World) (lastChecked : Nat) : List Event × Option String :=
  mainLoop w (get_latest_articles w.feed lastChecked)

/-- Recognizer for Caption Generator invocation events. -/
def isGenCaption : Event → Bool
  | .genCaption _ _ _ => true
  | _ => false

/-- Recognizer for Thumbnail Resolver invocation events. -/
def isFetchThumb : Event → Bool
  | .fetchThumb _ => true
  | _ => false

/-- Recognizer for Publisher invocation events. -/
def isPostIG : Event → Bool
  | .postIG _ _ => true
  | _ => false

/-- Recognizer for outbound HTTP POST events. -/
def isHttpPost : Event → Bool
  | .httpPost _ _ => true
  | _ => false

/-- A meta tag carrying an Open-Graph image URL. -/
def ogTag (u : String) : Tag :=
  ⟨"meta", [("property", "og:image"), ("content", u)]⟩

/-- First feed entry used in the concrete test worlds. -/
def entryA1 : FeedEntry := ⟨"A1", "https://site/a1", "p1", "s1", none⟩

/-- Second feed entry used in the concrete test worlds. -/
def entryA2 : FeedEntry := ⟨"A2", "https://site/a2", "p2", "s2", some "Bob"⟩

/-- A world in which no article page carries a thumbnail. -/
def wSkip : World :=
  { feed := [entryA1, entryA2]
    ai := fun _ => "cap"
    page := fun _ => []
    doPost := fun _ _ => ⟨200, []⟩
    accountId := "ACC"
    accessToken := "TOK" }

/-- A world in which the first article page has no thumbnail and the second
one does. -/
def wSecond : World :=
  { feed := [entryA1, entryA2]
    ai := fun _ => "cap"
    page := fun u => if u == "https://site/a2" then [ogTag "https://img2"] else []
    doPost := fun _ _ => ⟨200, [("id", .str "123")]⟩
    accountId := "ACC"
    accessToken := "TOK" }

/-- A world in which the first article page has a thumbnail. -/
def wFirst : World :=
  { feed := [entryA1, entryA2]
    ai := fun _ => "cap"
    page := fun u => if u == "https://site/a1" then [ogTag "https://img1"] else []
    doPost := fun _ _ => ⟨200, [("id", .str "123")]⟩
    accountId := "ACC"
    accessToken := "TOK" }

/-- C4: the sequence returned by the Feed Reader is independent of the
`last_checked` argument — for any parsed feed content and any two cutoff
timestamps the returned article lists are identical, so no entry is ever
filtered out by the cutoff. -/
theorem get_latest_articles_ignores_cutoff (feed : List FeedEntry) (t1 t2 : Nat) :
    get_latest_articles feed t1 = get_latest_articles feed t2 := rfl

/-- An HTML document whose only tag is an og:image meta tag with no
`content` attribute. -/
def docNoContent : List Tag := [⟨"meta", [("property", "og:image")]⟩]

/-- C10: on a document containing an og:image meta tag without a `content`
attribute, `fetch_thumbnail` does not return the absent value — it raises a
key-lookup error on `content`, so the absent-value branch is not the only
outcome for documents lacking a usable image URL. -/
theorem fetch_thumbnail_raises_on_missing_content :
    fetch_thumbnail docNoContent = Except.error "KeyError: content" ∧
      fetch_thumbnail docNoContent ≠ Except.ok none :=
  ⟨rfl, fun h => Except.noConfusion h⟩

/-- C8: if a document contains an og:image meta tag and every such tag in
it carries `content` value `u`, `fetch_thumbnail` returns `u`; if the
document contains no og:image meta tag at all, it returns the absent
value. -/
theorem fetch_thumbnail_og_image (doc : List Tag) (u : String) :
    ((∃ t ∈ doc, isOgImageMeta t = true) →
      (∀ t ∈ doc, isOgImageMeta t = true → t.getAttr "content" = some u) →
      fetch_thumbnail doc = Except.ok (some u)) ∧
    ((∀ t ∈ doc, isOgImageMeta t = false) → fetch_thumbnail doc = Except.ok none) := by
  constructor
  · rintro ⟨t0, ht0, hog⟩ hall
    unfold fetch_thumbnail
    cases hfind : doc.find? isOgImageMeta with
    | none =>
      rw [List.find?_eq_none] at hfind
      exact absurd hog (by simpa using hfind t0 ht0)
    | some t =>
      have hmem := List.mem_of_find?_eq_some hfind
      have hOg := List.find?_some hfind
      simp only [hall t hmem hOg]
  · intro hnone
    unfold fetch_thumbnail
    cases hfind : doc.find? isOgImageMeta with
    | none => rfl
    | some t =>
      have hmem := List.mem_of_find?_eq_some hfind
      have hOg := List.find?_some hfind
      rw [hnone t hmem] at hOg
      cases hOg

/-- An HTML document with a single og:image meta tag. -/
def docOg : List Tag := [ogTag "https://x/y.jpg"]

/-- Witness for C8: on the one-tag document the resolver returns the tag's
URL, and on the empty document it returns the absent value. -/
theorem fetch_thumbnail_og_image_witness :
    fetch_thumbnail docOg = Except.ok (some "https://x/y.jpg") ∧
      fetch_thumbnail [] = Except.ok none :=
  ⟨(fetch_thumbnail_og_image docOg "https://x/y.jpg").1 (by decide) (by decide),
   (fetch_thumbnail_og_image [] "https://x/y.jpg").2 (by decide)⟩

/-- The Publisher emits only HTTP POSTs and prints: none of its events is a
component-invocation event. -/
theorem post_to_instagram_events (doPost : String → List (String × JVal) → HttpResponse)
    (accountId accessToken imageUrl caption : String) :
    ∀ e ∈ post_to_instagram doPost accountId accessToken imageUrl caption,
      isGenCaption e = false ∧ isFetchThumb e = false ∧ isPostIG e = false := by
  intro e he
  simp only [post_to_instagram] at he
  split at he
  · simp only [List.mem_cons, List.not_mem_nil, or_false] at he
    rcases he with rfl | rfl <;> exact ⟨rfl, rfl, rfl⟩
  · rw [List.mem_append] at he
    rcases he with he | he
    · simp only [List.mem_cons, List.not_mem_nil, or_false] at he
      rcases he with rfl | rfl <;> exact ⟨rfl, rfl, rfl⟩
    · split at he <;>
        simp only [List.mem_cons, List.not_mem_nil, or_false] at he <;>
        subst he <;> exact ⟨rfl, rfl, rfl⟩

/-- C5: when the phase-1 (media-create) response body has no `id` field,
the Publisher's whole trace is the phase-1 POST followed by a print of the
response body as an error; in particular it issues exactly one HTTP POST,
so no phase-2 request is made. -/
theorem post_to_instagram_phase1_missing_id
    (doPost : String → List (String × JVal) → HttpResponse)
    (accountId accessToken imageUrl caption : String)
    (h : (doPost (media_url accountId)
        (mediaPayload imageUrl caption accessToken)).body.get "id" = none) :
    post_to_instagram doPost accountId accessToken imageUrl caption =
      [Event.httpPost (media_url accountId) (mediaPayload imageUrl caption accessToken),
       Event.printedJson "Error uploading media:"
         (doPost (media_url accountId) (mediaPayload imageUrl caption accessToken)).body] ∧
    (post_to_instagram doPost accountId accessToken imageUrl caption).countP isHttpPost = 1 := by
  have htr : post_to_instagram doPost accountId accessToken imageUrl caption =
      [Event.httpPost (media_url accountId) (mediaPayload imageUrl caption accessToken),
       Event.printedJson "Error uploading media:"
         (doPost (media_url accountId) (mediaPayload imageUrl caption accessToken)).body] := by
    simp [post_to_instagram, h, optTruthy]
  exact ⟨htr, by rw [htr]; rfl⟩

/-- A POST oracle whose responses never carry an `id` field. -/
def dpNoId : String → List (String × JVal) → HttpResponse :=
  fun _ _ => ⟨200, [("error", .str "bad")]⟩

/-- Witness for C5: with the no-`id` oracle the Publisher's trace is the
phase-1 POST and the error print, and it issues a single HTTP POST. -/
theorem post_to_instagram_phase1_missing_id_witness :
    post_to_instagram dpNoId "ACC" "TOK" "img" "cap" =
      [Event.httpPost (media_url "ACC") (mediaPayload "img" "cap" "TOK"),
       Event.printedJson "Error uploading media:"
         (dpNoId (media_url "ACC") (mediaPayload "img" "cap" "TOK")).body] ∧
    (post_to_instagram dpNoId "ACC" "TOK" "img" "cap").countP isHttpPost = 1 :=
  post_to_instagram_phase1_missing_id dpNoId "ACC" "TOK" "img" "cap" rfl

/-- C6: when phase 1 yields a truthy `id`, the Publisher issues the phase-2
POST; on status 200 its trace ends with the success print and nothing
further, and on any other status it ends with a print of the raw error
payload.  Either way the function's whole observable behaviour is this
trace: it returns no structured result and raises nothing. -/
theorem post_to_instagram_phase2
    (doPost : String → List (String × JVal) → HttpResponse)
    (accountId accessToken imageUrl caption : String) (mid : JVal)
    (h : (doPost (media_url accountId)
        (mediaPayload imageUrl caption accessToken)).body.get "id" = some mid)
    (hmid : mid.truthy = true) :
    ((doPost (publish_url accountId) (publishPayload mid accessToken)).status = 200 →
      post_to_instagram doPost accountId accessToken imageUrl caption =
        [Event.httpPost (media_url accountId) (mediaPayload imageUrl caption accessToken),
         Event.httpPost (publish_url accountId) (publishPayload mid accessToken),
         Event.printed "Post published successfully!"]) ∧
    ((doPost (publish_url accountId) (publishPayload mid accessToken)).status ≠ 200 →
      post_to_instagram doPost accountId accessToken imageUrl caption =
        [Event.httpPost (media_url accountId) (mediaPayload imageUrl caption accessToken),
         Event.httpPost (publish_url accountId) (publishPayload mid accessToken),
         Event.printedJson "Error publishing post:"
           (doPost (publish_url accountId) (publishPayload mid accessToken)).body]) := by
  constructor
  · intro hs
    simp [post_to_instagram, h, optTruthy, hmid, hs]
  · intro hs
    simp [post_to_instagram, h, optTruthy, hmid, hs]

/-- A POST oracle that always returns an `id` and status 200. -/
def dpOk : String → List (String × JVal) → HttpResponse :=
  fun _ _ => ⟨200, [("id", .str "123")]⟩

/-- Witness for C6: with the accepting oracle the Publisher's trace is the
two POSTs followed by the success print. -/
theorem post_to_instagram_phase2_witness :
    post_to_instagram dpOk "ACC" "TOK" "img" "cap" =
      [Event.httpPost (media_url "ACC") (mediaPayload "img" "cap" "TOK"),
       Event.httpPost (publish_url "ACC") (publishPayload (.str "123") "TOK"),
       Event.printed "Post published successfully!"] :=
  (post_to_instagram_phase2 dpOk "ACC" "TOK" "img" "cap" (.str "123") rfl rfl).1 rfl

/-- C7: for a feed whose entries all supply title, link, published and
summary, the Feed Reader returns exactly one Article per entry, in feed
order, preserving title and link verbatim, taking the author verbatim when
the entry has one and defaulting it to "Unknown" otherwise. -/
theorem get_latest_articles_fields (feed : List FeedEntry) (t : Nat) :
    (get_latest_articles feed t).length = feed.length ∧
    ∀ i (h1 : i < (get_latest_articles feed t).length) (h2 : i < feed.length),
      ((get_latest_articles feed t).get ⟨i, h1⟩).title = (feed.get ⟨i, h2⟩).title ∧
      ((get_latest_articles feed t).get ⟨i, h1⟩).link = (feed.get ⟨i, h2⟩).link ∧
      (∀ a, (feed.get ⟨i, h2⟩).author = some a →
        ((get_latest_articles feed t).get ⟨i, h1⟩).author = a) ∧
      ((feed.get ⟨i, h2⟩).author = none →
        ((get_latest_articles feed t).get ⟨i, h1⟩).author = "Unknown") := by
  refine ⟨List.length_map _ _, ?_⟩
  intro i h1 h2
  have hget : (get_latest_articles feed t).get ⟨i, h1⟩ =
      entryToArticle (feed.get ⟨i, h2⟩) := by
    simp [get_latest_articles, List.getElem_map]
  rw [hget]
  refine ⟨rfl, rfl, ?_, ?_⟩
  · intro a ha
    rw [List.get_eq_getElem] at ha
    simp [entryToArticle, ha]
  · intro ha
    rw [List.get_eq_getElem] at ha
    simp [entryToArticle, ha]

/-- Witness for C7: on a one-entry feed whose entry has no author field,
the returned record keeps the title and defaults the author. -/
theorem get_latest_articles_fields_witness :
    ((get_latest_articles [entryA1] 0).get ⟨0, Nat.one_pos⟩).title =
      ([entryA1].get ⟨0, Nat.one_pos⟩).title ∧
    ((get_latest_articles [entryA1] 0).get ⟨0, Nat.one_pos⟩).author = "Unknown" := by
  have h := (get_latest_articles_fields [entryA1] 0).2 0 Nat.one_pos Nat.one_pos
  exact ⟨h.1, h.2.2.2 rfl⟩

/-- Unfolding of the driver loop when the current article's page fetch
raises: the run aborts after the two invocation events. -/
theorem mainLoop_cons_error (w : World) (a : Article) (rest : List Article) (e : String)
    (h : fetch_thumbnail (w.page a.link) = Except.error e) :
    mainLoop w (a :: rest) =
      ([Event.genCaption a.title a.summary a.link, Event.fetchThumb a.link], some e) := by
  simp [mainLoop, h]

/-- Unfolding of the driver loop when the current article's thumbnail is
falsy: print the no-thumbnail message and continue with the rest. -/
theorem mainLoop_cons_falsy (w : World) (a : Article) (rest : List Article) (v : Option String)
    (h : fetch_thumbnail (w.page a.link) = Except.ok v) (hv : strFalsy v = true) :
    mainLoop w (a :: rest) =
      (Event.genCaption a.title a.summary a.link :: Event.fetchThumb a.link ::
        Event.printed (noThumbMsg a.title) :: (mainLoop w rest).1,
       (mainLoop w rest).2) := by
  simp [mainLoop, h, hv]

/-- Unfolding of the driver loop when the current article's thumbnail is a
nonempty URL: publish and break. -/
theorem mainLoop_cons_truthy (w : World) (a : Article) (rest : List Article) (u : String)
    (h : fetch_thumbnail (w.page a.link) = Except.ok (some u)) (hu : u.isEmpty = false) :
    mainLoop w (a :: rest) =
      (Event.genCaption a.title a.summary a.link :: Event.fetchThumb a.link ::
        Event.postIG u (generate_caption w.ai a.title a.summary a.link) ::
        post_to_instagram w.doPost w.accountId w.accessToken u
          (generate_caption w.ai a.title a.summary a.link),
       none) := by
  simp [mainLoop, h, strFalsy, hu]

/-- The driver loop posts at most once, whatever the article list. -/
theorem mainLoop_postIG_count (w : World) (arts : List Article) :
    (mainLoop w arts).1.countP isPostIG ≤ 1 := by
  induction arts with
  | nil => simp [mainLoop]
  | cons a rest ih =>
    cases hft : fetch_thumbnail (w.page a.link) with
    | error e =>
      rw [mainLoop_cons_error w a rest e hft]
      simp [isPostIG]
    | ok v =>
      cases hv : strFalsy v with
      | true =>
        rw [mainLoop_cons_falsy w a rest v hft hv]
        simpa [List.countP_cons, isPostIG] using ih
      | false =>
        cases v with
        | none => simp [strFalsy] at hv
        | some u =>
          have hu : u.isEmpty = false := by simpa [strFalsy] using hv
          rw [mainLoop_cons_truthy w a rest u hft hu]
          have hz : (post_to_instagram w.doPost w.accountId w.accessToken u
              (generate_caption w.ai a.title a.summary a.link)).countP isPostIG = 0 :=
            List.countP_eq_zero.mpr fun e he => by
              simp [(post_to_instagram_events _ _ _ _ _ e he).2.2]
          simp [List.countP_cons, isPostIG, hz]

/-- If the driver loop emits a Publisher invocation for image `u` and
caption `c`, the article list splits as `pre ++ a :: rest` where every
article of `pre` had a falsy thumbnail and received the no-thumbnail print,
and `a` — the first article whose page yielded a nonempty thumbnail URL —
is the one published, with `u` its thumbnail and `c` its generated
caption. -/
theorem mainLoop_postIG_mem (w : World) (arts : List Article) (u c : String)
    (h : Event.postIG u c ∈ (mainLoop w arts).1) :
    ∃ pre a rest, arts = pre ++ a :: rest ∧
      (∀ b ∈ pre, ∃ v, fetch_thumbnail (w.page b.link) = Except.ok v ∧ strFalsy v = true ∧
        Event.printed (noThumbMsg b.title) ∈ (mainLoop w arts).1) ∧
      fetch_thumbnail (w.page a.link) = Except.ok (some u) ∧ u.isEmpty = false ∧
      c = generate_caption w.ai a.title a.summary a.link := by
  induction arts with
  | nil => simp [mainLoop] at h
  | cons a rest ih =>
    cases hft : fetch_thumbnail (w.page a.link) with
    | error e =>
      rw [mainLoop_cons_error w a rest e hft] at h
      simp at h
    | ok v =>
      cases hv : strFalsy v with
      | true =>
        rw [mainLoop_cons_falsy w a rest v hft hv] at h
        simp only [List.mem_cons] at h
        rcases h with h | h | h | h
        · simp at h
        · simp at h
        · simp at h
        · obtain ⟨pre', a', rest', heq, hpre, hfa, hu, hc⟩ := ih h
          refine ⟨a :: pre', a', rest', by simp [heq], ?_, hfa, hu, hc⟩
          intro b hb
          rw [mainLoop_cons_falsy w a rest v hft hv]
          rcases List.mem_cons.mp hb with rfl | hb2
          · exact ⟨v, hft, hv, by simp⟩
          · obtain ⟨v', h1, h2, h3⟩ := hpre b hb2
            exact ⟨v', h1, h2, by simp [h3]⟩
      | false =>
        cases v with
        | none => simp [strFalsy] at hv
        | some u' =>
          have hu' : u'.isEmpty = false := by simpa [strFalsy] using hv
          rw [mainLoop_cons_truthy w a rest u' hft hu'] at h
          simp only [List.mem_cons] at h
          rcases h with h | h | h | h
          · simp at h
          · simp at h
          · rw [Event.postIG.injEq] at h
            obtain ⟨rfl, rfl⟩ := h
            exact ⟨[], a, rest, rfl, by simp, hft, hu', rfl⟩
          · have := (post_to_instagram_events w.doPost w.accountId w.accessToken u'
              (generate_caption w.ai a.title a.summary a.link) _ h).2.2
            simp [isPostIG] at this

/-- C3: in every run the Publisher is invoked at most once, and when it is
invoked it is invoked exactly for the first article, in feed order, whose
page yields a nonempty thumbnail URL, with that article's generated
caption; every earlier article had a falsy thumbnail and was skipped with
the printed no-thumbnail message, the loop moving on past it. -/
theorem main_posts_first_good_article (w : World) (t : Nat) :
    (mainRun w t).1.countP isPostIG ≤ 1 ∧
    ∀ u c, Event.postIG u c ∈ (mainRun w t).1 →
      ∃ pre a rest, get_latest_articles w.feed t = pre ++ a :: rest ∧
        (∀ b ∈ pre, ∃ v, fetch_thumbnail (w.page b.link) = Except.ok v ∧ strFalsy v = true ∧
          Event.printed (noThumbMsg b.title) ∈ (mainRun w t).1) ∧
        fetch_thumbnail (w.page a.link) = Except.ok (some u) ∧ u.isEmpty = false ∧
        c = generate_caption w.ai a.title a.summary a.link :=
  ⟨mainLoop_postIG_count w _, fun u c h => mainLoop_postIG_mem w _ u c h⟩

/-- Witness for C3: in the two-article world whose second article is the
first with a thumbnail, the posted image and caption are the second
article's, and the first article was skipped with the printed message. -/
theorem main_posts_first_good_article_witness :
    ∃ pre a rest, get_latest_articles wSecond.feed 0 = pre ++ a :: rest ∧
      (∀ b ∈ pre, ∃ v, fetch_thumbnail (wSecond.page b.link) = Except.ok v ∧ strFalsy v = true ∧
        Event.printed (noThumbMsg b.title) ∈ (mainRun wSecond 0).1) ∧
      fetch_thumbnail (wSecond.page a.link) = Except.ok (some "https://img2") ∧
      ("https://img2").isEmpty = false ∧
      "cap" = generate_caption wSecond.ai a.title a.summary a.link :=
  (main_posts_first_good_article wSecond 0).2 "https://img2" "cap" (by decide)

/-- Counterexample to C1: in the two-entry world where no page has a
thumbnail, the driver invokes the Caption Generator and the Thumbnail
Resolver for the second entry as well, refuting "never for any subsequent
entry, no matter whether the first entry has a thumbnail". -/
theorem main_first_entry_only_counterexample :
    2 ≤ wSkip.feed.length ∧
    Event.genCaption "A2" "s2" "https://site/a2" ∈ (mainRun wSkip 0).1 ∧
    Event.fetchThumb "https://site/a2" ∈ (mainRun wSkip 0).1 := by
  refine ⟨by decide, by decide, by decide⟩

/-- C1 amended: for every feed with at least one entry the driver invokes
the Caption Generator and the Thumbnail Resolver for the first entry (they
are the run's first two events), and when the first entry's page yields a
nonempty thumbnail URL it never invokes either for any subsequent entry:
each is invoked exactly once in the whole run. -/
theorem main_first_entry (w : World) (t : Nat) (e1 : FeedEntry) (rest : List FeedEntry)
    (hfeed : w.feed = e1 :: rest) :
    (mainRun w t).1.take 2 =
      [Event.genCaption e1.title e1.summary e1.link, Event.fetchThumb e1.link] ∧
    ∀ u, fetch_thumbnail (w.page e1.link) = Except.ok (some u) → u.isEmpty = false →
      (mainRun w t).1.countP isGenCaption = 1 ∧
      (mainRun w t).1.countP isFetchThumb = 1 := by
  have hrun : mainRun w t = mainLoop w (entryToArticle e1 :: get_latest_articles rest t) := by
    simp only [mainRun, hfeed]
    rfl
  rw [hrun]
  constructor
  · cases hft : fetch_thumbnail (w.page e1.link) with
    | error e =>
      rw [mainLoop_cons_error w (entryToArticle e1) (get_latest_articles rest t) e hft]
      rfl
    | ok v =>
      cases hv : strFalsy v with
      | true =>
        rw [mainLoop_cons_falsy w (entryToArticle e1) (get_latest_articles rest t) v hft hv]
        rfl
      | false =>
        cases v with
        | none => simp [strFalsy] at hv
        | some u =>
          have hu : u.isEmpty = false := by simpa [strFalsy] using hv
          rw [mainLoop_cons_truthy w (entryToArticle e1) (get_latest_articles rest t) u hft hu]
          rfl
  · intro u hft hu
    rw [mainLoop_cons_truthy w (entryToArticle e1) (get_latest_articles rest t) u hft hu]
    simp only [entryToArticle_title, entryToArticle_summary, entryToArticle_link]
    have hz1 : (post_to_instagram w.doPost w.accountId w.accessToken u
        (generate_caption w.ai e1.title e1.summary e1.link)).countP isGenCaption = 0 :=
      List.countP_eq_zero.mpr fun e he => by
        simp [(post_to_instagram_events _ _ _ _ _ e he).1]
    have hz2 : (post_to_instagram w.doPost w.accountId w.accessToken u
        (generate_caption w.ai e1.title e1.summary e1.link)).countP isFetchThumb = 0 :=
      List.countP_eq_zero.mpr fun e he => by
        simp [(post_to_instagram_events _ _ _ _ _ e he).2.1]
    constructor
    · simp [List.countP_cons, isGenCaption, isFetchThumb, isPostIG, hz1]
    · simp [List.countP_cons, isGenCaption, isFetchThumb, isPostIG, hz2]

/-- Witness for the amended C1: in the world whose first article has a
thumbnail, the run opens with the two invocation events and each component
is invoked exactly once. -/
theorem main_first_entry_witness :
    (mainRun wFirst 0).1.take 2 =
      [Event.genCaption "A1" "s1" "https://site/a1", Event.fetchThumb "https://site/a1"] ∧
    (mainRun wFirst 0).1.countP isGenCaption = 1 ∧
    (mainRun wFirst 0).1.countP isFetchThumb = 1 := by
  have h := main_first_entry wFirst 0 entryA1 [entryA2] rfl
  exact ⟨h.1, h.2 "https://img1" rfl rfl⟩

/-- Counterexample to C2: in the world where the first article has no
thumbnail but the second does, the Publisher is invoked once in the run,
refuting "invokes the Publisher zero times and stops processing further
articles" for runs whose first article lacks a thumbnail. -/
theorem main_no_thumbnail_counterexample :
    fetch_thumbnail (wSecond.page "https://site/a1") = Except.ok none ∧
    (mainRun wSecond 0).1.countP isPostIG = 1 := by
  refine ⟨rfl, by decide⟩

/-- C2 amended: when the first article's thumbnail is falsy the driver
prints the no-thumbnail message naming that article's title and does not
invoke the Publisher for it, but it does not stop: the run is exactly the
first article's two invocation events and the message, followed by the
loop run on the remaining articles (which may itself publish). -/
theorem main_no_thumbnail_skips (w : World) (t : Nat) (e1 : FeedEntry) (rest : List FeedEntry)
    (hfeed : w.feed = e1 :: rest) (v : Option String)
    (hft : fetch_thumbnail (w.page e1.link) = Except.ok v) (hv : strFalsy v = true) :
    mainRun w t =
      (Event.genCaption e1.title e1.summary e1.link :: Event.fetchThumb e1.link ::
        Event.printed (noThumbMsg e1.title) :: (mainLoop w (get_latest_articles rest t)).1,
       (mainLoop w (get_latest_articles rest t)).2) := by
  have hrun : mainRun w t = mainLoop w (entryToArticle e1 :: get_latest_articles rest t) := by
    simp only [mainRun, hfeed]
    rfl
  rw [hrun, mainLoop_cons_falsy w (entryToArticle e1) (get_latest_articles rest t) v hft hv]
  rfl

/-- Witness for the amended C2: in the two-article world the run prints
the first article's no-thumbnail message and continues with the second
article. -/
theorem main_no_thumbnail_skips_witness :
    mainRun wSecond 0 =
      (Event.genCaption "A1" "s1" "https://site/a1" :: Event.fetchThumb "https://site/a1" ::
        Event.printed (noThumbMsg "A1") :: (mainLoop wSecond (get_latest_articles [entryA2] 0)).1,
       (mainLoop wSecond (get_latest_articles [entryA2] 0)).2) :=
  main_no_thumbnail_skips wSecond 0 entryA1 [entryA2] rfl none rfl rfl

/-- The single feed entry of the end-to-end scenario. -/
def entryT : FeedEntry := ⟨"T", "https://a/b", "pT", "S", some "Unknown"⟩

/-- The end-to-end world: one entry, a completion oracle answering with the
fixed caption, an article page carrying the og:image tag, and a Graph API
that returns id "123" on the media-create call and status 200 on the
publish call. -/
def wE2E : World :=
  { feed := [entryT]
    ai := fun _ => "Caption text https://a/b"
    page := fun u => if u == "https://a/b" then [ogTag "https://a/img.jpg"] else []
    doPost := fun u _ =>
      if u == media_url "ACC" then ⟨200, [("id", .str "123")]⟩ else ⟨200, []⟩
    accountId := "ACC"
    accessToken := "TOK" }

/-- C9: in the end-to-end scenario the run prints exactly one success
line, and the phase-1 request body carries the scenario's image URL and
caption. -/
theorem main_end_to_end :
    (mainRun wE2E 0).1.countP
      (fun e => e == Event.printed "Post published successfully!") = 1 ∧
    Event.httpPost (media_url "ACC")
        (mediaPayload "https://a/img.jpg" "Caption text https://a/b" "TOK")
      ∈ (mainRun wE2E 0).1 ∧
    ("image_url", JVal.str "https://a/img.jpg")
      ∈ mediaPayload "https://a/img.jpg" "Caption text https://a/b" "TOK" ∧
    ("caption", JVal.str "Caption text https://a/b")
      ∈ mediaPayload "https://a/img.jpg" "Caption text https://a/b" "TOK" := by
  refine ⟨by decide, by decide, by decide, by decide⟩
